import Mathlib

/-!
Verification development for the article-production pipeline
(upload-articles-script): shallow embeddings of the daemon scheduler,
fact-validator repair logic, query-generator fallback, chunk quality
filter, writer post-processing, compiler control flow, the LLM failure
counter, and the filename sanitizer, together with theorems settling the
specification claims about them.

Text is modelled as a list of Unicode code points (`List Nat`), which is
the representation Python string operations act on.  Regular-expression
based transformations are embedded as explicit left-to-right scanners
with the same leftmost-match semantics as `re.sub` / `re.findall`.
-/

/-- Code points of a string literal. -/
def codes (s : String) : List Nat := s.toList.map Char.toNat

/-- Python `\w` on ASCII input: letters, digits and underscore
(code point 95). -/
def isWordCode (n : Nat) : Bool :=
  (48 ≤ n && n ≤ 57) || (65 ≤ n && n ≤ 90) || (97 ≤ n && n ≤ 122) || n == 95

/-- Python `\s` on ASCII input: space, tab, newline, vertical tab,
form feed, carriage return. -/
def isSpaceCode (n : Nat) : Bool :=
  n == 32 || n == 9 || n == 10 || n == 11 || n == 12 || n == 13

/-- Python `str.lower` on one ASCII code point. -/
def lowerCode (n : Nat) : Nat := if 65 ≤ n && n ≤ 90 then n + 32 else n

/-- Does `text` begin with `pat`? -/
def startsWithL : List Nat → List Nat → Bool
  | [], _ => true
  | _ :: _, [] => false
  | p :: ps, t :: ts => p == t && startsWithL ps ts

/-- Does `pat` occur as a contiguous substring of the text
(Python `pat in text`)? -/
def containsL (pat : List Nat) : List Nat → Bool
  | [] => pat.isEmpty
  | t :: ts => startsWithL pat (t :: ts) || containsL pat ts

/-- Auxiliary: dropping a matching run never lengthens a list. -/
theorem length_dropWhile_le (p : Nat → Bool) (l : List Nat) :
    (l.dropWhile p).length ≤ l.length := by
  induction l with
  | nil => simp [List.dropWhile]
  | cons a t ih =>
      by_cases h : p a
      · simp [List.dropWhile, h]; omega
      · simp [List.dropWhile, h]

/- ===== src/utils/filename_utils.py ===== -/

/-- Python `str.strip()` restricted to whitespace removal on both ends. -/
def stripEnds (l : List Nat) : List Nat :=
  ((l.dropWhile (fun n => isSpaceCode n)).reverse.dropWhile
    (fun n => isSpaceCode n)).reverse

/-- `re.sub(r'[^\w\s-]', '', s)`: keep word characters, whitespace and
hyphens, drop everything else. -/
def keepWordSpaceDash (l : List Nat) : List Nat :=
  l.filter (fun n => isWordCode n || isSpaceCode n || n == 45)

/-- A separator for the collapsing pass: whitespace, underscore or
hyphen (the class `[\s_-]`). -/
def isSepCode (n : Nat) : Bool := isSpaceCode n || n == 95 || n == 45

/-- `re.sub(r'[\s_-]+', '_', s)`: each maximal run of separators becomes
a single underscore (code point 95).  The flag records whether the
previous code point was part of a separator run that has already
emitted its underscore. -/
def collapseAux : Bool → List Nat → List Nat
  | _, [] => []
  | prevSep, n :: ns =>
      if isSepCode n then
        if prevSep then collapseAux true ns else 95 :: collapseAux true ns
      else
        n :: collapseAux false ns

/-- `re.sub(r'[\s_-]+', '_', s)`. -/
def collapseSeps (l : List Nat) : List Nat := collapseAux false l

/-- `get_safe_filename` from src/utils/filename_utils.py: lower-case,
strip, drop non word/space/hyphen characters, collapse separator runs to
underscores, truncate to 60 code points. -/
def get_safe_filename (title : List Nat) : List Nat :=
  ((collapseSeps (keepWordSpaceDash
      (stripEnds (title.map lowerCode)))).take 60)

/-- daemon.py line 324: skip a topic when its derived slug is already
among the published slugs reported by the publishing sink. -/
def published_slug_skip (published_slugs : List (List Nat))
    (topic : List Nat) : Bool :=
  published_slugs.contains (get_safe_filename topic)

/-- compiler.py lines 74-75: the on-disk article file name derived from
the topic. -/
def article_file_name (topic : List Nat) : List Nat :=
  get_safe_filename topic ++ codes ".md"

/-- A member of `l.dropWhile p` is a member of `l`. -/
theorem mem_of_mem_dropWhileL (p : Nat → Bool) (l : List Nat) (c : Nat)
    (h : c ∈ List.dropWhile p l) : c ∈ l := by
  induction l with
  | nil => simp [List.dropWhile] at h
  | cons a t ih =>
      by_cases hp : p a
      · rw [List.dropWhile_cons, if_pos hp] at h
        exact List.mem_cons_of_mem _ (ih h)
      · rw [List.dropWhile_cons, if_neg hp] at h
        exact h

/-- Membership through `collapseAux`: every emitted code point is either
the underscore or a non-separator code point of the input. -/
theorem mem_collapseAux (c : Nat) (b : Bool) (l : List Nat)
    (h : c ∈ collapseAux b l) :
    c = 95 ∨ (c ∈ l ∧ isSepCode c = false) := by
  induction l generalizing b with
  | nil => simp [collapseAux] at h
  | cons n ns ih =>
      by_cases hsep : isSepCode n
      · rw [collapseAux, if_pos hsep] at h
        have htail : c = 95 ∨ c ∈ collapseAux true ns := by
          cases b with
          | true => exact Or.inr (by simpa using h)
          | false => simpa using List.mem_cons.mp h
        rcases htail with h95 | hmem
        · exact Or.inl h95
        · rcases ih true hmem with h95 | ⟨hm, hs⟩
          · exact Or.inl h95
          · exact Or.inr ⟨List.mem_cons_of_mem _ hm, hs⟩
      · rw [collapseAux, if_neg hsep] at h
        rcases List.mem_cons.mp h with hc | htail
        · subst hc
          exact Or.inr ⟨List.mem_cons_self _ _, by simpa using hsep⟩
        · rcases ih false htail with h95 | ⟨hm, hs⟩
          · exact Or.inl h95
          · exact Or.inr ⟨List.mem_cons_of_mem _ hm, hs⟩

/-- Membership through `stripEnds`. -/
theorem mem_stripEnds (c : Nat) (l : List Nat) (h : c ∈ stripEnds l) :
    c ∈ l := by
  unfold stripEnds at h
  have h1 := List.mem_reverse.mp h
  have h2 := mem_of_mem_dropWhileL _ _ _ h1
  have h3 := List.mem_reverse.mp h2
  exact mem_of_mem_dropWhileL _ _ _ h3

/-- C10: `get_safe_filename` returns at most 60 code points, all of them
word characters (letters, digits, underscore) with no whitespace, no
hyphen and no uppercase letter; it is not injective — the distinct
topics "a.b" and "ab" (differing only in punctuation) share the slug
"ab", so the daemon's already-published slug check and the compiler's
save path conflate them. -/
theorem get_safe_filename_spec :
    (∀ title : List Nat,
      (get_safe_filename title).length ≤ 60 ∧
      ∀ c ∈ get_safe_filename title,
        isWordCode c = true ∧ isSpaceCode c = false ∧ c ≠ 45 ∧
          ¬(65 ≤ c ∧ c ≤ 90)) ∧
    (∃ t1 t2 : List Nat, t1 ≠ t2 ∧
      get_safe_filename t1 = get_safe_filename t2 ∧
      article_file_name t1 = article_file_name t2 ∧
      published_slug_skip [get_safe_filename t1] t2 = true) := by
  constructor
  · intro title
    constructor
    · exact List.length_take_le _ _
    · intro c hc
      have hc1 : c ∈ collapseSeps (keepWordSpaceDash
          (stripEnds (title.map lowerCode))) := List.mem_of_mem_take hc
      have hnotupper : ∀ d ∈ stripEnds (title.map lowerCode),
          ¬(65 ≤ d ∧ d ≤ 90) := by
        intro d hd
        have hd1 : d ∈ title.map lowerCode := mem_stripEnds _ _ hd
        rcases List.mem_map.mp hd1 with ⟨a, _, rfl⟩
        unfold lowerCode
        by_cases ha : (65 ≤ a && a ≤ 90) = true
        · rw [if_pos ha]
          simp only [Bool.and_eq_true, decide_eq_true_eq] at ha
          omega
        · rw [if_neg ha]
          simp only [Bool.and_eq_true, decide_eq_true_eq,
            not_and, not_le] at ha
          omega
      rcases mem_collapseAux c false _ hc1 with h95 | ⟨hmem, hsepf⟩
      · subst h95
        refine ⟨by decide, by decide, by decide, by decide⟩
      · have hfil := List.mem_filter.mp hmem
        have hpred := hfil.2
        have hsrc := hfil.1
        simp only [Bool.or_eq_true] at hpred
        unfold isSepCode at hsepf
        simp only [Bool.or_eq_false_iff] at hsepf
        obtain ⟨⟨hsp, h95f⟩, h45f⟩ := hsepf
        have hword : isWordCode c = true := by
          rcases hpred with (hw | hs) | hd
          · exact hw
          · rw [hs] at hsp; cases hsp
          · rw [hd] at h45f; cases h45f
        refine ⟨hword, hsp, ?_, hnotupper c hsrc⟩
        intro h45
        subst h45
        simp at h45f
  · refine ⟨codes "a.b", codes "ab", by decide, by decide, by decide,
      by decide⟩

/-- Witness for C10: instantiates the sanitizer properties at the title
"A b" and its member code point 97 and the conflating pair at
"a.b" / "ab". -/
theorem get_safe_filename_spec_witness :
    (97 ∈ get_safe_filename (codes "A b")) ∧
      (isWordCode 97 = true ∧ isSpaceCode 97 = false ∧ 97 ≠ 45 ∧
        ¬(65 ≤ 97 ∧ 97 ≤ 90)) :=
  ⟨by decide, (get_safe_filename_spec.1 (codes "A b")).2 97 (by decide)⟩

/- ===== src/production/nodes/fact_validator.py ===== -/

/-- The `analysis` sub-record of a passport, with every key optional as
in a parsed JSON object (a missing key and an explicit `null` are both
modelled by `none`). -/
structure AnalysisData where
  query_intent : Option String
  detected_game_name : Option String
  is_real_game : Option Bool
deriving DecidableEq

/-- The `decision` sub-record of a passport. -/
structure DecisionData where
  match_status : Option String
  selected_writing_strategy : Option String
  pivot_reason : Option String
deriving DecidableEq

/-- The `facts` sub-record of a passport. -/
structure FactsData where
  provider : Option String
  rtp : Option String
  volatility : Option String
  has_jackpot : Option Bool
  features : Option (List String)
deriving DecidableEq

/-- The `currency_format` sub-record of `technical_specs`. -/
structure CurrencyFormat where
  min_bet : Option String
  max_bet : Option String
deriving DecidableEq

/-- The `technical_specs` sub-record of a passport. -/
structure TechnicalSpecs where
  mechanics_type : Option String
  rtp_single_value : Option String
  currency_format : Option CurrencyFormat
deriving DecidableEq

/-- A passport as parsed from the model's JSON response: each top-level
section may be absent. -/
structure ParsedPassport where
  analysis : Option AnalysisData
  decision : Option DecisionData
  facts : Option FactsData
  technical_specs : Option TechnicalSpecs
deriving DecidableEq

/-- A repaired passport: every top-level section present
(fact_validator.py guarantees exactly this much). -/
structure ArticlePassport where
  analysis : AnalysisData
  decision : DecisionData
  facts : FactsData
  technical_specs : TechnicalSpecs
deriving DecidableEq

/-- fact_validator.py lines 153-166: the per-section defaults
substituted when a top-level key is missing or not a dict. -/
def defaultAnalysis : AnalysisData :=
  { query_intent := some "GENERIC", detected_game_name := none,
    is_real_game := some false }

/-- Default `decision` section (fact_validator.py lines 155-159). -/
def defaultDecision : DecisionData :=
  { match_status := some "GENERIC_QUERY",
    selected_writing_strategy := some "GENERIC_GUIDE",
    pivot_reason := some "Fallback: Missing decision data in LLM response." }

/-- Default `facts` section (fact_validator.py line 160). -/
def defaultFacts : FactsData :=
  { provider := none, rtp := none, volatility := none,
    has_jackpot := some false, features := some [] }

/-- Default `technical_specs` section
(fact_validator.py lines 161-165). -/
def defaultTechnicalSpecs : TechnicalSpecs :=
  { mechanics_type := some "PAYLINES", rtp_single_value := some "Unknown",
    currency_format := some { min_bet := some "$0.10",
                              max_bet := some "$100" } }

/-- fact_validator.py lines 185-194: the safe passport returned when the
response fails to parse as JSON. -/
def fallbackPassport : ArticlePassport :=
  { analysis := defaultAnalysis
    decision := { match_status := some "GENERIC_QUERY",
                  selected_writing_strategy := some "GENERIC_GUIDE",
                  pivot_reason := some "Fallback due to parse error" }
    facts := defaultFacts
    technical_specs := defaultTechnicalSpecs }

/-- fact_validator.py lines 151-177 (VALIDATION & REPAIR): substitute a
default for each missing top-level section, then ensure the two decision
keys `match_status` and `selected_writing_strategy` exist; all supplied
values are passed through unchanged. -/
def repairPassport (p : ParsedPassport) : ArticlePassport :=
  let d0 := p.decision.getD defaultDecision
  { analysis := p.analysis.getD defaultAnalysis
    decision := { d0 with
      match_status := some (d0.match_status.getD "GENERIC_QUERY")
      selected_writing_strategy :=
        some (d0.selected_writing_strategy.getD "GENERIC_GUIDE") }
    facts := p.facts.getD defaultFacts
    technical_specs := p.technical_specs.getD defaultTechnicalSpecs }

/-- `FactValidatorNode.run` (fact_validator.py lines 44-194).  The topic
and the search snippets only shape the prompt; the returned passport
depends on the generation service's response solely through the parsed
JSON value, so the function is modelled on the parse outcome: `none` is
a response that fails to parse (the `except` branch), `some p` a parsed
response. -/
def fact_validator_run (parsed : Option ParsedPassport) : ArticlePassport :=
  match parsed with
  | none => fallbackPassport
  | some p => repairPassport p

/-- The fixed mapping table of §4.2, stated verbatim in the prompt's
MAPPING RULES (fact_validator.py lines 73-78). -/
def mappingTable (ms : String) : Option String :=
  if ms = "EXACT_MATCH" then some "DIRECT_REVIEW"
  else if ms = "FEATURE_MISMATCH" then some "MYTH_BUSTER"
  else if ms = "NON_EXISTENT_GAME" then some "GENRE_OVERVIEW"
  else if ms = "LOGICAL_CONTRADICTION" then some "STRATEGY_GUIDE"
  else if ms = "GENERIC_QUERY" then some "GENERIC_GUIDE"
  else none

/-- A parsed response pairing EXACT_MATCH with GENERIC_GUIDE, which the
mapping table forbids. -/
def mismatchedParsed : ParsedPassport :=
  { analysis := none
    decision := some { match_status := some "EXACT_MATCH",
                       selected_writing_strategy := some "GENERIC_GUIDE",
                       pivot_reason := some "model ignored the table" }
    facts := none
    technical_specs := none }

/-- Counterexample to C1: `FactValidatorNode.run` does not enforce the
mapping table — a parsed response that pairs match_status EXACT_MATCH
with writing strategy GENERIC_GUIDE is returned exactly as the
generation service produced it, although the table assigns
DIRECT_REVIEW to EXACT_MATCH. -/
theorem fact_validator_mapping_counterexample :
    (fact_validator_run (some mismatchedParsed)).decision.match_status
        = some "EXACT_MATCH" ∧
    (fact_validator_run (some mismatchedParsed)).decision.selected_writing_strategy
        = some "GENERIC_GUIDE" ∧
    mappingTable "EXACT_MATCH" = some "DIRECT_REVIEW" ∧
    ("GENERIC_GUIDE" : String) ≠ "DIRECT_REVIEW" :=
  ⟨rfl, rfl, rfl, by decide⟩

/-- C1 (amended): the mapping table is guaranteed only on the fallback
paths — a response that fails to parse, or whose decision section or
decision keys are missing, yields GENERIC_QUERY → GENERIC_GUIDE, which
satisfies the table; when the parsed response supplies both decision
keys they are passed through unchanged, whatever pair the generation
service returned. -/
theorem fact_validator_run_spec :
    ((fact_validator_run none).decision.match_status = some "GENERIC_QUERY" ∧
     (fact_validator_run none).decision.selected_writing_strategy
        = some "GENERIC_GUIDE" ∧
     mappingTable "GENERIC_QUERY" = some "GENERIC_GUIDE") ∧
    (∀ (a : Option AnalysisData) (f : Option FactsData)
        (t : Option TechnicalSpecs),
      (fact_validator_run (some ⟨a, none, f, t⟩)).decision.match_status
          = some "GENERIC_QUERY" ∧
      (fact_validator_run
          (some ⟨a, none, f, t⟩)).decision.selected_writing_strategy
          = some "GENERIC_GUIDE") ∧
    (∀ (a : Option AnalysisData) (f : Option FactsData)
        (t : Option TechnicalSpecs) (ms ws : String) (pr : Option String),
      (fact_validator_run
          (some ⟨a, some ⟨some ms, some ws, pr⟩, f, t⟩)).decision.match_status
          = some ms ∧
      (fact_validator_run
          (some ⟨a, some ⟨some ms, some ws, pr⟩, f,
            t⟩)).decision.selected_writing_strategy = some ws) :=
  ⟨⟨rfl, rfl, rfl⟩, fun _ _ _ => ⟨rfl, rfl⟩, fun _ _ _ _ _ _ => ⟨rfl, rfl⟩⟩

/- ===== src/production/nodes/query_generator.py ===== -/

/-- The JSON value a query-generator response parses to, as far as the
branch structure of `QueryGeneratorNode.run` distinguishes it
(query_generator.py lines 60-76): a parse failure (`JSONDecodeError`),
a dict with a "queries" key, a JSON list, a non-empty dict without a
"queries" key (its first value is returned), or an empty dict. -/
inductive QGParsed where
  | failed : QGParsed
  | withQueries (qs : List String) : QGParsed
  | asList (qs : List String) : QGParsed
  | otherDict (firstValue : List String) : QGParsed
  | emptyDict : QGParsed
deriving DecidableEq

/-- The three deterministic templated fallback queries
(query_generator.py lines 72-76). -/
def fallbackQueries (topic : String) (year : Nat) : List String :=
  [topic ++ " review", topic ++ " bonuses " ++ toString year,
   topic ++ " strategy"]

/-- `QueryGeneratorNode.run` (query_generator.py lines 48-76), modelled
on the parse outcome of the generation service's response; `year` is
`datetime.date.today().year`. -/
def query_generator_run (topic : String) (year : Nat)
    (parsed : QGParsed) : List String :=
  match parsed with
  | .failed => fallbackQueries topic year
  | .withQueries qs => qs
  | .asList qs => qs
  | .otherDict v => v
  | .emptyDict => [topic]

/-- Counterexample to C6: a response that parses successfully to the
JSON object with an empty "queries" list makes `QueryGeneratorNode.run`
return the empty list, so the node does not always return a non-empty
list. -/
theorem query_generator_empty_counterexample :
    query_generator_run "Starburst slot" 2026 (.withQueries []) = [] :=
  rfl

/-- C6 (amended): on a parse failure `QueryGeneratorNode.run` returns
exactly the three deterministic templated queries "{topic} review",
"{topic} bonuses {year}", "{topic} strategy", which are never empty;
but when the response parses successfully the parsed list is returned
as-is, and it may be empty (e.g. `{"queries": []}` or `[]`). -/
theorem query_generator_run_spec :
    (∀ (topic : String) (year : Nat),
      query_generator_run topic year .failed
        = [topic ++ " review", topic ++ " bonuses " ++ toString year,
           topic ++ " strategy"] ∧
      query_generator_run topic year .failed ≠ []) ∧
    (∀ (topic : String) (year : Nat) (qs : List String),
      query_generator_run topic year (.withQueries qs) = qs ∧
      query_generator_run topic year (.asList qs) = qs) :=
  ⟨fun _ _ => ⟨rfl, by simp [query_generator_run, fallbackQueries]⟩,
   fun _ _ _ => ⟨rfl, rfl⟩⟩

/- ===== src/production/nodes/compiler.py ===== -/

/-- One outline section as the compiler reads it: its id and title
(strategist.py `ArticleSection`, only the fields compiler.py uses). -/
structure OutlineSection where
  id : Nat
  title : String
deriving DecidableEq

/-- An article outline as the compiler reads it
(strategist.py `ArticleOutline` plus the optional meta fields
compiler.py looks up with `.get`). -/
structure ArticleOutline where
  main_title : Option String
  meta_description : Option String
  keywords : List String
  sections : List OutlineSection
deriving DecidableEq

/-- What a call to `CompilerNode.run` produced: the returned
`(path, text)` pair plus whether `rag_store.cleanup` was attempted
(compiler.py lines 85-91). -/
structure CompileOutcome where
  path : String
  text : String
  cleanupAttempted : Bool
deriving DecidableEq

/-- The body lines the compiler assembles (compiler.py lines 41-70):
frontmatter, H1, then each outline section's draft in outline order,
skipping sections missing from the drafts. -/
def assembleLines (topic : String) (outline : ArticleOutline)
    (sections : List (Nat × String)) : List String :=
  let main_title := outline.main_title.getD topic
  let body := (outline.sections.filterMap (fun s =>
    (sections.lookup s.id).map (fun t => [t, ""]))).flatten
  ["---", "title: " ++ main_title,
   "description: " ++ outline.meta_description.getD "",
   "keywords: " ++ toString outline.keywords, "---", "",
   "# " ++ main_title, ""] ++ body

/-- `CompilerNode.run` (compiler.py lines 28-93).  `sections` is the
drafts mapping (empty list = falsy empty dict); `saveOk` abstracts
whether the `open`/`write` at lines 77-79 succeeds; `hasRagStore`
whether a store was injected.  Cleanup is attempted only on the path
that reaches line 85. -/
def compiler_run (topic : String) (outline : Option ArticleOutline)
    (sections : List (Nat × String)) (saveOk : Bool)
    (hasRagStore : Bool) : CompileOutcome :=
  match outline with
  | none => { path := "", text := "", cleanupAttempted := false }
  | some o =>
      if sections.isEmpty then
        { path := "", text := "", cleanupAttempted := false }
      else
        let content := String.intercalate "\n" (assembleLines topic o sections)
        if saveOk then
          { path := "articles/" ++ String.mk
              ((get_safe_filename (codes topic)).map Char.ofNat) ++ ".md",
            text := content,
            cleanupAttempted := hasRagStore }
        else
          { path := "", text := "", cleanupAttempted := false }

/-- Counterexample to C2: a call with a null outline returns without
attempting the Ephemeral Store cleanup (compiler.py returns at line 35,
before the cleanup block at line 85). -/
theorem compiler_cleanup_counterexample :
    (compiler_run "Starburst slot" none [(1, "body")] true
        true).cleanupAttempted = false :=
  rfl

/-- C2 (amended): `CompilerNode.run` attempts the Ephemeral Store
cleanup exactly when a store was injected, the outline is present, the
section mapping is non-empty and the article file write succeeded; on
the early-return paths (missing outline, empty drafts, save failure)
cleanup is skipped. -/
theorem compiler_run_cleanup_spec :
    ∀ (topic : String) (outline : Option ArticleOutline)
      (sections : List (Nat × String)) (saveOk hasRagStore : Bool),
      (compiler_run topic outline sections saveOk
          hasRagStore).cleanupAttempted
        = (outline.isSome && !sections.isEmpty && saveOk && hasRagStore) := by
  intro topic outline sections saveOk hasRagStore
  cases outline with
  | none => rfl
  | some o =>
      by_cases hs : sections.isEmpty
      · simp [compiler_run, hs]
      · cases saveOk with
        | false => simp [compiler_run, hs]
        | true => simp [compiler_run, hs]

/- ===== src/production/daemon.py — _select_daily_batch ===== -/

/-- A game row as the daemon loads it (daemon.py `_load_games_ordered`). -/
structure Game where
  id : Nat
  name : String
  slug : String
  tier : Nat
deriving DecidableEq

/-- The slice of the persisted `SchedulerState` that
`_select_daily_batch` reads and writes (daemon.py lines 258-263;
`last_run_date` and `daily_count` are untouched by the selection loop). -/
structure SchedulerState where
  current_game_index : Nat
  pending_topics : List String
deriving DecidableEq

/-- The effect of one iteration of the `while len(batch) < limit` loop. -/
inductive LoopStep where
  | ret (batch : List String) (st : SchedulerState)
  | cont (st : SchedulerState) (batch : List String)
  | indexError
deriving DecidableEq

/-- One iteration of the selection loop (daemon.py lines 183-211).
`build` abstracts `_build_pending_for_game` (cache scan filtered by the
published set); `indexError` is the `games[idx]` lookup failing, which
cannot happen for a non-empty catalog. -/
def select_iteration (build : Game → List String) (games : List Game)
    (limit : Nat) (st : SchedulerState) (batch : List String) : LoopStep :=
  if limit ≤ batch.length then .ret batch st
  else
    match st.pending_topics with
    | p :: ps =>
        .cont { current_game_index :=
                  if ((p :: ps).drop (limit - batch.length)).isEmpty then
                    st.current_game_index + 1
                  else st.current_game_index,
                pending_topics := (p :: ps).drop (limit - batch.length) }
          (batch ++ (p :: ps).take (limit - batch.length))
    | [] =>
        match games.get? (if games.length ≤ st.current_game_index then 0
            else st.current_game_index) with
        | none => .indexError
        | some g =>
            if (build g).isEmpty then
              .cont { current_game_index :=
                        (if games.length ≤ st.current_game_index then 0
                         else st.current_game_index) + 1,
                      pending_topics := [] } batch
            else
              .cont { current_game_index :=
                        if games.length ≤ st.current_game_index then 0
                        else st.current_game_index,
                      pending_topics := build g } batch

/-- Result of running the selection loop with a fuel bound: `outOfFuel`
means the loop has not returned within `fuel` iterations. -/
inductive SelectResult where
  | done (batch : List String) (st : SchedulerState)
  | crashed
  | outOfFuel
deriving DecidableEq

/-- `_select_daily_batch` (daemon.py lines 176-212) as a fuel-bounded
iteration of `select_iteration`. -/
def select_daily_batch (build : Game → List String) (games : List Game)
    (limit : Nat) : Nat → SchedulerState → List String → SelectResult
  | 0, _, _ => .outOfFuel
  | fuel + 1, st, batch =>
      match select_iteration build games limit st batch with
      | .ret b st' => .done b st'
      | .cont st' batch' => select_daily_batch build games limit fuel st' batch'
      | .indexError => .crashed

/-- C3 (refuting the claimed termination): when every game in a
non-empty catalog has an empty pending set and the daily limit is
positive, `_select_daily_batch` never returns: for every iteration
bound the loop is still running, cycling through the catalog and
re-scanning it.  Consequently the daemon's empty-batch NO_WORK branch
(daemon.py lines 294-297) is unreachable: whenever the loop does return
a batch, the batch holds at least `limit` topics, hence is non-empty. -/
theorem select_daily_batch_no_work_diverges :
    (∀ (build : Game → List String) (games : List Game) (limit : Nat),
      games ≠ [] → (∀ g ∈ games, build g = []) → 0 < limit →
      ∀ (fuel idx : Nat),
        select_daily_batch build games limit fuel ⟨idx, []⟩ [] = .outOfFuel) ∧
    (∀ (build : Game → List String) (games : List Game)
        (limit fuel : Nat) (st : SchedulerState) (batch ret : List String)
        (rst : SchedulerState),
      select_daily_batch build games limit fuel st batch = .done ret rst →
      limit ≤ ret.length) := by
  constructor
  · intro build games limit hne hempty hlim fuel
    induction fuel with
    | zero => intro idx; rfl
    | succ n ih =>
        intro idx
        rw [select_daily_batch]
        have hidx : (if games.length ≤ idx then 0 else idx) < games.length := by
          by_cases h : games.length ≤ idx
          · rw [if_pos h]
            cases games with
            | nil => exact absurd rfl hne
            | cons a l => simp
          · rw [if_neg h]; omega
        have hblen : ¬ limit ≤ ([] : List String).length := by
          simp; omega
        have hg : games.get? (if games.length ≤ idx then 0 else idx)
            = some (games.get ⟨_, hidx⟩) := List.get?_eq_get hidx
        rw [select_iteration, if_neg hblen]
        have hmem : games.get ⟨_, hidx⟩ ∈ games := List.get_mem _ _ _
        simp only [hg, hempty _ hmem, List.isEmpty_nil, if_true]
        exact ih _
  · intro build games limit fuel
    induction fuel with
    | zero => intro st batch ret rst h; cases h
    | succ n ih =>
        intro st batch ret rst h
        rw [select_daily_batch] at h
        cases hit : select_iteration build games limit st batch with
        | ret b st' =>
          rw [hit] at h
          cases h
          unfold select_iteration at hit
          split at hit
          · cases hit
            assumption
          · split at hit
            · cases hit
            · split at hit
              · cases hit
              · split at hit
                · cases hit
                · cases hit
        | cont st' batch' =>
          rw [hit] at h
          exact ih _ _ _ _ h
        | indexError =>
          rw [hit] at h
          cases h

/-- Witness for C3: with the one-game catalog and no pending topics the
loop is still running after 7 iterations; with one pending topic the
loop returns a batch of at least `limit = 1` topics. -/
theorem select_daily_batch_no_work_witness :
    (([⟨1, "Starburst", "starburst", 1⟩] : List Game) ≠ [] ∧
     (∀ g ∈ ([⟨1, "Starburst", "starburst", 1⟩] : List Game),
        (fun _ : Game => ([] : List String)) g = []) ∧
     0 < 1 ∧
     select_daily_batch (fun _ => []) [⟨1, "Starburst", "starburst", 1⟩]
        1 7 ⟨0, []⟩ [] = .outOfFuel) ∧
    (select_daily_batch (fun _ => ["t"]) [⟨1, "Starburst", "starburst", 1⟩]
        1 5 ⟨0, []⟩ [] = .done ["t"] ⟨1, []⟩ ∧
     1 ≤ (["t"] : List String).length) :=
  ⟨⟨by decide, by decide, by decide,
    select_daily_batch_no_work_diverges.1 _ _ _ (by decide) (by decide)
      (by decide) 7 0⟩,
   ⟨rfl, select_daily_batch_no_work_diverges.2 (fun _ => ["t"])
      [⟨1, "Starburst", "starburst", 1⟩] 1 5 ⟨0, []⟩ [] ["t"] ⟨1, []⟩
      (by decide)⟩⟩

/-- C4: in any iteration of the selection loop that starts with a
non-empty `pending_topics`, the loop continues, the new pending queue is
the old one with the first `limit - len(batch)` topics moved to the
batch, and `current_game_index` is unchanged unless that removal drains
`pending_topics` completely, in which case it is incremented by one —
the queue is always fully drained before the game index advances. -/
theorem select_iteration_index_invariant :
    ∀ (build : Game → List String) (games : List Game) (limit : Nat)
      (st : SchedulerState) (batch : List String),
      st.pending_topics ≠ [] → batch.length < limit →
      ∃ (st' : SchedulerState) (batch' : List String),
        select_iteration build games limit st batch = .cont st' batch' ∧
        st'.pending_topics = st.pending_topics.drop (limit - batch.length) ∧
        batch' = batch ++ st.pending_topics.take (limit - batch.length) ∧
        ((st'.pending_topics = [] ∧
            st'.current_game_index = st.current_game_index + 1) ∨
         (st'.pending_topics ≠ [] ∧
            st'.current_game_index = st.current_game_index)) := by
  intro build games limit st batch hp hlen
  obtain ⟨idx, pts⟩ := st
  cases pts with
  | nil => simp at hp
  | cons p ps =>
      have hnle : ¬ limit ≤ batch.length := by omega
      refine ⟨⟨if ((p :: ps).drop (limit - batch.length)).isEmpty then
                 idx + 1 else idx,
               (p :: ps).drop (limit - batch.length)⟩,
              batch ++ (p :: ps).take (limit - batch.length),
              by rw [select_iteration, if_neg hnle], rfl, rfl, ?_⟩
      by_cases hrest : ((p :: ps).drop (limit - batch.length)).isEmpty
      · left
        constructor
        · show (p :: ps).drop (limit - batch.length) = []
          exact List.isEmpty_iff.mp hrest
        · show (if ((p :: ps).drop (limit - batch.length)).isEmpty = true
              then idx + 1 else idx) = idx + 1
          rw [if_pos hrest]
      · right
        constructor
        · show (p :: ps).drop (limit - batch.length) ≠ []
          rw [List.isEmpty_iff] at hrest
          exact hrest
        · show (if ((p :: ps).drop (limit - batch.length)).isEmpty = true
              then idx + 1 else idx) = idx
          rw [if_neg hrest]

/-- Witness for C4: one pending topic, empty batch, limit 1 — the
iteration moves the topic into the batch, drains the queue and advances
the game index by one. -/
theorem select_iteration_index_invariant_witness :
    ((["t"] : List String) ≠ [] ∧ (0 : Nat) < 1) ∧
    (∃ (st' : SchedulerState) (batch' : List String),
      select_iteration (fun _ => []) [] 1 ⟨4, ["t"]⟩ [] = .cont st' batch' ∧
      st'.pending_topics = (["t"] : List String).drop (1 - 0) ∧
      batch' = [] ++ (["t"] : List String).take (1 - 0) ∧
      ((st'.pending_topics = [] ∧ st'.current_game_index = 4 + 1) ∨
       (st'.pending_topics ≠ [] ∧ st'.current_game_index = 4))) :=
  ⟨⟨by decide, by decide⟩,
   select_iteration_index_invariant (fun _ => []) [] 1 ⟨4, ["t"]⟩ []
     (by decide) (by decide)⟩

/- ===== src/llm_client.py — the generation-service boundary ===== -/

/-- `LLMClient._record_failure` (llm_client.py lines 64-69): increment
the consecutive-error counter and report whether the fatal RuntimeError
is raised (counter has reached 10). -/
def record_failure (consecutiveErrors : Nat) : Nat × Bool :=
  (consecutiveErrors + 1, decide (10 ≤ consecutiveErrors + 1))

/-- The message of the fatal RuntimeError (llm_client.py line 67). -/
def fatalMessage : List Nat := codes "LLM failed 10 requests in a row. Stopping."

/-- daemon.py line 451: the daemon returns when the caught exception's
message contains this fixed substring. -/
def daemon_stops_on (msg : List Nat) : Bool :=
  containsL (codes "LLM failed 10 requests in a row") msg

/-- Outcome of a sequence of requests at the generation-service
boundary: how often the fatal condition was raised, how many requests
were actually attempted, the final consecutive-error counter, and
whether the daemon loop has returned. -/
structure BoundaryRun where
  raises : Nat
  attempted : Nat
  counter : Nat
  stopped : Bool
deriving DecidableEq

/-- The generation-service boundary processing a sequence of request
outcomes (`true` = failed request, handled by `_record_failure`;
`false` = successful request, `_record_success` resets the counter to
zero, llm_client.py lines 61-69).  The counter persists across calls;
when `_record_failure` raises, the RuntimeError is re-raised by every
retry loop (llm_client.py lines 144-161), propagates to the daemon,
and the daemon returns (daemon.py lines 447-453), so no further request
is attempted. -/
def llm_boundary_run : List Bool → Nat → BoundaryRun
  | [], n => ⟨0, 0, n, false⟩
  | e :: es, n =>
      if e then
        if (record_failure n).2 then
          ⟨1, 1, (record_failure n).1, true⟩
        else
          ⟨(llm_boundary_run es (record_failure n).1).raises,
           (llm_boundary_run es (record_failure n).1).attempted + 1,
           (llm_boundary_run es (record_failure n).1).counter,
           (llm_boundary_run es (record_failure n).1).stopped⟩
      else
        ⟨(llm_boundary_run es 0).raises,
         (llm_boundary_run es 0).attempted + 1,
         (llm_boundary_run es 0).counter,
         (llm_boundary_run es 0).stopped⟩

/-- C5: starting from a fresh counter, a run of 11 consecutive failed
requests raises the fatal condition exactly once — at the 10th failure,
after which the daemon loop has returned and no further request (the
11th included) is ever attempted; a successful request resets the
counter to zero; and the raised message contains the fixed substring
the daemon's stop check looks for. -/
theorem llm_boundary_eleven_failures_spec :
    (∀ tail : List Bool,
      llm_boundary_run (List.replicate 11 true ++ tail) 0
        = ⟨1, 10, 10, true⟩) ∧
    (∀ (es : List Bool) (n : Nat),
      llm_boundary_run (false :: es) n
        = ⟨(llm_boundary_run es 0).raises,
           (llm_boundary_run es 0).attempted + 1,
           (llm_boundary_run es 0).counter,
           (llm_boundary_run es 0).stopped⟩) ∧
    daemon_stops_on fatalMessage = true :=
  ⟨fun _ => rfl, fun _ _ => rfl, by decide⟩

/- ===== src/production/nodes/scraper_indexer.py — _is_garbage_chunk ===== -/

/-- The critical boilerplate trigger phrases
(scraper_indexer.py lines 69-86). -/
def criticalGarbageTriggers : List (List Nat) :=
  [codes "verify you are human", codes "checking your browser",
   codes "access denied", codes "403 forbidden",
   codes "blocked by network security", codes "cloudflare",
   codes "ray id:", codes "confirm you are a human",
   codes "target url returned error", codes "session expired",
   codes "forgot password", codes "two factor authentication",
   codes "create account", codes "join today and get",
   codes "enter your e-mail address", codes "based on your ip address",
   codes "detected that you are visiting",
   codes "gambling regulations in germany", codes "html local storage",
   codes "indexeddb", codes "storage duration", codes "ytidb",
   codes "yt-remote", codes "last_result_entry_key",
   codes "tap to unmute", codes "you\x27re signed out",
   codes "videos you watch may be added", codes "consent selection",
   codes "do not sell or share", codes "powered by cookiebot",
   codes "strictly necessary cookies"]

/-- The cookie/consent context trigger phrases
(scraper_indexer.py lines 91-96). -/
def cookieContextTriggers : List (List Nat) :=
  [codes "cookie declaration", codes "consent id",
   codes "marketing cookies", codes "withdraw your consent",
   codes "google analytics", codes "privacy policy",
   codes "use cookies", codes "all rights reserved",
   codes "cookie settings", codes "we use cookies",
   codes "personalise content"]

/-- Shortest run terminated by `stop` with no newline inside: the lazy
`\(.*?\)` tail of `re.findall(r'\[.*?\]\(.*?\)', text)` — nothing
follows the closer, so the first `stop` always wins and no backtracking
arises.  Returns the number of code points consumed including the
terminator, and the remainder. -/
def scanUntil (stop : Nat) : List Nat → Option (Nat × List Nat)
  | [] => none
  | c :: cs =>
      if c == stop then some (1, cs)
      else if c == 10 then none
      else
        match scanUntil stop cs with
        | some (k, rest) => some (k + 1, rest)
        | none => none

/-- Match the remainder of a markdown link right after its opening `[`:
`.*?\]\(.*?\)`.  The lazy first run backtracks exactly as the Python
engine does: a `]` terminates it only when a `(` follows and a `)` is
then reachable with no newline in between; otherwise the `]` (a
non-newline code point) joins the run and the scan moves on, so
`[a]b](c)` is one single match.  Returns the consumed length and the
remainder. -/
def scanLink : List Nat → Option (Nat × List Nat)
  | [] => none
  | c :: cs =>
      if c == 93 then
        match cs with
        | 40 :: rest2 =>
            match scanUntil 41 rest2 with
            | some (k2, rest3) => some (2 + k2, rest3)
            | none =>
                match scanLink cs with
                | some (k, rest) => some (k + 1, rest)
                | none => none
        | _ =>
            match scanLink cs with
            | some (k, rest) => some (k + 1, rest)
            | none => none
      else if c == 10 then none
      else
        match scanLink cs with
        | some (k, rest) => some (k + 1, rest)
        | none => none

/-- Left-to-right scan summing the lengths of all non-overlapping
matches of `\[.*?\]\(.*?\)`, as `re.findall` + `sum(len(l))` do
(scraper_indexer.py lines 103-104).  The fuel is the list length; every
step consumes at least one code point. -/
def linkCharsAux : Nat → List Nat → Nat
  | 0, _ => 0
  | _ + 1, [] => 0
  | fuel + 1, c :: cs =>
      if c == 91 then
        match scanLink cs with
        | some (k, rest) => (k + 1) + linkCharsAux fuel rest
        | none => linkCharsAux fuel cs
      else linkCharsAux fuel cs

/-- Total number of code points inside markdown links. -/
def link_char_count (text : List Nat) : Nat := linkCharsAux text.length text

/-- `ScraperIndexerNode._is_garbage_chunk`
(scraper_indexer.py lines 61-108).  The float comparison
`link_char_count / len(text) > 0.4` is modelled by the exact rational
comparison `2 * len < 5 * link`: for the fraction of two list lengths
the double rounding of `0.4` never changes the verdict. -/
def is_garbage_chunk (text : List Nat) : Bool :=
  if text.length < 100 then true
  else if criticalGarbageTriggers.any
      (fun t => containsL t (text.map lowerCode)) then true
  else if 2 ≤ cookieContextTriggers.countP
      (fun t => containsL t (text.map lowerCode)) then true
  else if 2 * text.length < 5 * link_char_count text then true
  else false

/-- C7: the chunk quality filter rejects every chunk shorter than the
minimum length 100; rejects every 500-code-point chunk matching two or
more cookie/consent triggers; rejects every chunk whose fraction of
code points inside markdown links exceeds 0.4; and accepts every
500-code-point chunk that contains no trigger phrase (critical or
cookie) and whose link-character ratio is exactly 0.1. -/
theorem is_garbage_chunk_spec :
    (∀ text : List Nat, text.length < 100 → is_garbage_chunk text = true) ∧
    (∀ text : List Nat, text.length = 500 →
      2 ≤ cookieContextTriggers.countP
        (fun t => containsL t (text.map lowerCode)) →
      is_garbage_chunk text = true) ∧
    (∀ text : List Nat, 2 * text.length < 5 * link_char_count text →
      is_garbage_chunk text = true) ∧
    (∀ text : List Nat, text.length = 500 →
      (∀ t ∈ criticalGarbageTriggers ++ cookieContextTriggers,
        containsL t (text.map lowerCode) = false) →
      10 * link_char_count text = text.length →
      is_garbage_chunk text = false) := by
  refine ⟨?_, ?_, ?_, ?_⟩
  · intro text h
    rw [is_garbage_chunk, if_pos h]
  · intro text hlen hcookie
    rw [is_garbage_chunk]
    by_cases h1 : text.length < 100
    · rw [if_pos h1]
    · rw [if_neg h1]
      by_cases h2 : criticalGarbageTriggers.any
          (fun t => containsL t (text.map lowerCode)) = true
      · rw [if_pos h2]
      · rw [if_neg h2, if_pos hcookie]
  · intro text hratio
    rw [is_garbage_chunk]
    by_cases h1 : text.length < 100
    · rw [if_pos h1]
    · rw [if_neg h1]
      by_cases h2 : criticalGarbageTriggers.any
          (fun t => containsL t (text.map lowerCode)) = true
      · rw [if_pos h2]
      · rw [if_neg h2]
        by_cases h3 : 2 ≤ cookieContextTriggers.countP
            (fun t => containsL t (text.map lowerCode))
        · rw [if_pos h3]
        · rw [if_neg h3, if_pos hratio]
  · intro text hlen htrig hlink
    have hcrit : criticalGarbageTriggers.any
        (fun t => containsL t (text.map lowerCode)) = false := by
      rw [List.any_eq_false]
      intro t ht
      rw [htrig t (List.mem_append_left _ ht)]
      simp
    have hcookie : cookieContextTriggers.countP
        (fun t => containsL t (text.map lowerCode)) = 0 := by
      rw [List.countP_eq_zero]
      intro t ht
      rw [htrig t (List.mem_append_right _ ht)]
      simp
    rw [is_garbage_chunk, if_neg (by omega), if_neg (by rw [hcrit]; simp),
      if_neg (by rw [hcookie]; omega), if_neg (by omega)]

/-- A chunk below the minimum length. -/
def shortChunk : List Nat := codes "too short"

/-- A 500-code-point chunk holding two cookie/consent trigger phrases. -/
def cookieChunk : List Nat :=
  codes "we use cookiesprivacy policy" ++ List.replicate 472 122

/-- A chunk that is one single markdown link (link ratio 1). -/
def linkyChunk : List Nat := codes "[aaa](bbb)"

/-- A 500-code-point chunk with no trigger phrase and exactly 50 of its
code points inside markdown links (ratio 0.1). -/
def cleanChunk : List Nat :=
  codes "[aaa](bbb)[aaa](bbb)[aaa](bbb)[aaa](bbb)[aaa](bbb)"
    ++ List.replicate 450 122

set_option maxRecDepth 40000 in
/-- Witness for C7: the four filter clauses instantiated at concrete
chunks. -/
theorem is_garbage_chunk_spec_witness :
    (shortChunk.length < 100 ∧ is_garbage_chunk shortChunk = true) ∧
    (cookieChunk.length = 500 ∧
     2 ≤ cookieContextTriggers.countP
       (fun t => containsL t (cookieChunk.map lowerCode)) ∧
     is_garbage_chunk cookieChunk = true) ∧
    (2 * linkyChunk.length < 5 * link_char_count linkyChunk ∧
     is_garbage_chunk linkyChunk = true) ∧
    (cleanChunk.length = 500 ∧
     10 * link_char_count cleanChunk = cleanChunk.length ∧
     is_garbage_chunk cleanChunk = false) :=
  ⟨⟨by decide, is_garbage_chunk_spec.1 shortChunk (by decide)⟩,
   ⟨by decide, by decide,
    is_garbage_chunk_spec.2.1 cookieChunk (by decide) (by decide)⟩,
   ⟨by decide, is_garbage_chunk_spec.2.2.1 linkyChunk (by decide)⟩,
   ⟨by decide, by decide,
    is_garbage_chunk_spec.2.2.2 cleanChunk (by decide) (by decide)
      (by decide)⟩⟩

/- ===== src/production/nodes/writer.py — write_section post-processing ===== -/

/-- Split at the first occurrence of `stop`: returns the (possibly
empty) run before it and the remainder after it; `none` when `stop`
does not occur.  Embeds the greedy negated classes `[^\]]+` / `[^)]+`
of writer.py line 131, which consume exactly up to the first closer. -/
def splitAtCode (stop : Nat) : List Nat → Option (List Nat × List Nat)
  | [] => none
  | c :: cs =>
      if c == stop then some ([], cs)
      else
        match splitAtCode stop cs with
        | some (run, rest) => some (c :: run, rest)
        | none => none

/-- `re.sub(r'\[([^\]]+)\]\([^)]+\)', r'\1', content)` (writer.py
line 131): each markdown link is replaced by its anchor text; the
replacement is not rescanned, exactly as `re.sub` continues after the
match in the original string.  Fuel is the input length; every step
consumes at least one code point. -/
def stripMdAux : Nat → List Nat → List Nat
  | 0, l => l
  | _ + 1, [] => []
  | fuel + 1, c :: cs =>
      if c == 91 then
        match splitAtCode 93 cs with
        | some (anchor, rest1) =>
            match rest1 with
            | 40 :: rest2 =>
                if anchor.isEmpty then c :: stripMdAux fuel cs
                else
                  match splitAtCode 41 rest2 with
                  | some (url, rest3) =>
                      if url.isEmpty then c :: stripMdAux fuel cs
                      else anchor ++ stripMdAux fuel rest3
                  | none => c :: stripMdAux fuel cs
            | _ => c :: stripMdAux fuel cs
        | none => c :: stripMdAux fuel cs
      else c :: stripMdAux fuel cs

/-- The markdown-link substitution of writer.py line 131. -/
def strip_markdown_links (l : List Nat) : List Nat := stripMdAux l.length l

/-- Match `://` (code points 58 47 47). -/
def matchColonSlashSlash : List Nat → Option (List Nat)
  | 58 :: 47 :: 47 :: rest => some rest
  | _ => none

/-- After the literal `http`, match the optional `s` then `://`
(`https?://`). -/
def matchUrlTail (l : List Nat) : Option (List Nat) :=
  match l with
  | 115 :: rest =>
      match matchColonSlashSlash rest with
      | some r => some r
      | none => matchColonSlashSlash l
  | _ => matchColonSlashSlash l

/-- Try to match `https?://\S+` at the head of the list: literal
`http`, optional `s`, `://`, then a maximal non-empty run of
non-whitespace.  Returns the remainder after the match. -/
def matchUrlAt (l : List Nat) : Option (List Nat) :=
  match l with
  | 104 :: 116 :: 116 :: 112 :: rest =>
      match matchUrlTail rest with
      | some r =>
          match r with
          | c :: _ =>
              if isSpaceCode c then none
              else some (r.dropWhile (fun d => !(isSpaceCode d)))
          | [] => none
      | none => none
  | _ => none

/-- `re.sub(r'https?://\S+', '', content)` (writer.py line 132). -/
def stripUrlsAux : Nat → List Nat → List Nat
  | 0, l => l
  | _ + 1, [] => []
  | fuel + 1, c :: cs =>
      match matchUrlAt (c :: cs) with
      | some rest => stripUrlsAux fuel rest
      | none => c :: stripUrlsAux fuel cs

/-- The raw-URL substitution of writer.py line 132. -/
def strip_raw_urls (l : List Nat) : List Nat := stripUrlsAux l.length l

/-- The five TLD alternatives of `\b\w+\.(com|org|net|io|world)\b`
(writer.py line 133). -/
def tldList : List (List Nat) :=
  [codes "com", codes "org", codes "net", codes "io", codes "world"]

/-- Match one of the five TLDs at the head of the list, requiring a
word boundary right after it (end of input or a non-word code point).
Returns the matched length and the remainder. -/
def tldMatch (l : List Nat) : Option (Nat × List Nat) :=
  match tldList.find? (fun t => startsWithL t l &&
      (match l.drop t.length with
       | [] => true
       | d :: _ => !isWordCode d)) with
  | some t => some (t.length, l.drop t.length)
  | none => none

/-- `re.sub(r'\b\w+\.(com|org|net|io|world)\b', '', content)` (writer.py
line 133), as a left-to-right scan.  The flag records whether the
previous code point was a word character (for the leading `\b`); `\w+`
is forced to be the maximal word run because the following `\.` can
only match right after it. -/
def stripDomainsAux : Nat → Bool → List Nat → List Nat
  | 0, _, l => l
  | _ + 1, _, [] => []
  | fuel + 1, prevWord, c :: cs =>
      if prevWord = false ∧ isWordCode c = true then
        match (c :: cs).dropWhile (fun d => isWordCode d) with
        | d :: r2 =>
            if d = 46 then
              match tldMatch r2 with
              | some (_, rest) => stripDomainsAux fuel true rest
              | none => c :: stripDomainsAux fuel true cs
            else c :: stripDomainsAux fuel true cs
        | [] => c :: stripDomainsAux fuel true cs
      else
        c :: stripDomainsAux fuel (isWordCode c) cs

/-- The bare-domain substitution of writer.py line 133. -/
def strip_domains (l : List Nat) : List Nat :=
  stripDomainsAux l.length false l

/-- The post-processing applied to every generated section body
(writer.py lines 130-135): markdown-link unwrapping, raw-URL removal,
five-TLD domain removal, then `str.strip()`. -/
def write_section_post (content : List Nat) : List Nat :=
  stripEnds (strip_domains (strip_raw_urls (strip_markdown_links content)))

/-- `stripDomainsAux` on the empty list is the empty list. -/
theorem stripDomainsAux_nil (n : Nat) (b : Bool) :
    stripDomainsAux n b [] = [] := by
  cases n with
  | zero => rfl
  | succ m => rfl

/-- Dropping through a run that satisfies the predicate. -/
theorem dropWhile_append_all (p : Nat → Bool) (w l : List Nat)
    (hw : ∀ c ∈ w, p c = true) :
    (w ++ l).dropWhile p = l.dropWhile p := by
  induction w with
  | nil => rfl
  | cons a w' ih =>
      have ha := hw a (List.mem_cons_self _ _)
      rw [List.cons_append, List.dropWhile_cons, if_pos ha]
      exact ih (fun c hc => hw c (List.mem_cons_of_mem _ hc))

/-- A whole input consisting of one word run, a dot and a matching TLD
is deleted entirely by the domain substitution. -/
theorem strip_domains_token (w tld : List Nat) (hw : w ≠ [])
    (hword : ∀ c ∈ w, isWordCode c = true)
    (htm : tldMatch tld = some (tld.length, [])) :
    strip_domains (w ++ 46 :: tld) = [] := by
  cases w with
  | nil => exact absurd rfl hw
  | cons a w' =>
      have ha : isWordCode a = true := hword a (List.mem_cons_self _ _)
      have hdrop : ((a :: w') ++ 46 :: tld).dropWhile
          (fun d => isWordCode d) = 46 :: tld := by
        rw [dropWhile_append_all _ _ _ hword, List.dropWhile_cons, if_neg]
        decide
      show stripDomainsAux ((a :: w') ++ 46 :: tld).length false
          ((a :: w') ++ 46 :: tld) = []
      have hlen : ((a :: w') ++ 46 :: tld).length
          = (w' ++ 46 :: tld).length + 1 := by simp
      rw [hlen, List.cons_append]
      rw [List.cons_append] at hdrop
      rw [stripDomainsAux, if_pos ⟨rfl, ha⟩, hdrop]
      simp only [htm]
      exact stripDomainsAux_nil _ _

/-- Counterexample to C8: the section body "see site.xyz now" passes
through the post-processing unchanged, yet it contains the bare
domain-like token "site.xyz" — a non-empty word followed by a dot and
the alphabetic top-level-domain suffix "xyz" — because the substitution
only recognises the five suffixes com/org/net/io/world. -/
theorem write_section_links_counterexample :
    write_section_post (codes "see site.xyz now") = codes "see site.xyz now" ∧
    containsL (codes "site.xyz")
      (write_section_post (codes "see site.xyz now")) = true ∧
    codes "site.xyz" = codes "site" ++ 46 :: codes "xyz" ∧
    codes "site" ≠ [] ∧
    (codes "site").all (fun c => isWordCode c) = true ∧
    codes "xyz" ≠ [] ∧
    (codes "xyz").all (fun c => decide (97 ≤ c) && decide (c ≤ 122))
      = true := by
  decide

/-- C8 (amended): `write_section` post-processing applies, in order,
markdown-link unwrapping (keeping the anchor text), removal of
`http://`/`https://` tokens, and removal of bare domain tokens whose
top-level-domain suffix is one of com, org, net, io, world — a
standalone word-dot-TLD token with one of those five suffixes is always
deleted entirely; domain-like tokens with any other suffix are
preserved. -/
theorem write_section_post_spec :
    (∀ content : List Nat,
      write_section_post content
        = stripEnds (strip_domains
            (strip_raw_urls (strip_markdown_links content)))) ∧
    (∀ w tld : List Nat, w ≠ [] → (∀ c ∈ w, isWordCode c = true) →
      tld ∈ tldList → strip_domains (w ++ 46 :: tld) = []) ∧
    (strip_markdown_links (codes "[text](url) x") = codes "text x") ∧
    (strip_raw_urls (codes "go https://x.com/page now") = codes "go  now") ∧
    (strip_domains (codes "a.io b.world c.net d.org") = codes "   ") := by
  refine ⟨fun _ => rfl, ?_, by decide, by decide, by decide⟩
  intro w tld hw hword htld
  simp only [tldList, List.mem_cons, List.not_mem_nil, or_false] at htld
  rcases htld with rfl | rfl | rfl | rfl | rfl
  · exact strip_domains_token _ _ hw hword (by decide)
  · exact strip_domains_token _ _ hw hword (by decide)
  · exact strip_domains_token _ _ hw hword (by decide)
  · exact strip_domains_token _ _ hw hword (by decide)
  · exact strip_domains_token _ _ hw hword (by decide)

/-- Witness for C8 (amended): the standalone token "casino.com" is
deleted entirely. -/
theorem write_section_post_spec_witness :
    (codes "casino" ≠ [] ∧ (∀ c ∈ codes "casino", isWordCode c = true) ∧
      codes "com" ∈ tldList) ∧
    strip_domains (codes "casino" ++ 46 :: codes "com") = [] :=
  ⟨⟨by decide, by decide, by decide⟩,
   write_section_post_spec.2.1 (codes "casino") (codes "com")
     (by decide) (by decide) (by decide)⟩

/- ===== src/production/graph.py — the passport write-once invariant ===== -/

/-- The `ProductionState` TypedDict of graph.py lines 15-30.  The
`retriever` handle is modelled as an opaque presence flag; dict-valued
fields are association lists. -/
structure ProductionState where
  topic_data : List (String × String)
  game_specs : Option (List (String × String))
  specs_missing : Bool
  search_queries : List String
  search_results : List (List (String × String))
  article_passport : Option ArticlePassport
  outline : Option ArticleOutline
  rag_chunks : List String
  retriever : Option Unit
  article_sections : List (Nat × String)
  final_article_path : String
  final_article_text : String

/-- The partial update returned by `run_local_db_check` (graph.py lines
75-90): only `game_specs` and `specs_missing`. -/
structure DBCheckUpdate where
  game_specs : Option (List (String × String))
  specs_missing : Bool

/-- The partial update returned by `run_strategist` (graph.py line 136):
only `outline`. -/
structure StrategistUpdate where
  outline : Option ArticleOutline

/-- The partial update returned by `run_scraper_indexer` (graph.py line
152): `rag_chunks` and `retriever`. -/
structure ScraperIndexerUpdate where
  rag_chunks : List String
  retriever : Option Unit

/-- The partial update returned by `run_compiler` (graph.py line 193):
`final_article_path` and `final_article_text`. -/
structure CompilerUpdate where
  final_article_path : String
  final_article_text : String

/-- LangGraph merge of `run_local_db_check`'s returned dict. -/
def apply_db_check (s : ProductionState) (u : DBCheckUpdate) :
    ProductionState :=
  { s with game_specs := u.game_specs, specs_missing := u.specs_missing }

/-- LangGraph merge of `run_query_generator`'s returned dict
(graph.py line 99: only `search_queries`). -/
def apply_query_generator (s : ProductionState) (qs : List String) :
    ProductionState :=
  { s with search_queries := qs }

/-- LangGraph merge of `run_broad_search`'s returned dict
(graph.py lines 104-109: only `search_results`). -/
def apply_broad_search (s : ProductionState)
    (rs : List (List (String × String))) : ProductionState :=
  { s with search_results := rs }

/-- LangGraph merge of `run_fact_validator`'s returned dict
(graph.py line 122: only `article_passport`) — the single writer of the
passport field. -/
def apply_fact_validator (s : ProductionState) (p : ArticlePassport) :
    ProductionState :=
  { s with article_passport := some p }

/-- LangGraph merge of `run_strategist`'s returned dict.  `StrategistNode.run`
(strategist.py lines 50-142) only reads the passport through `.get`;
it never assigns into it, so its update carries no passport. -/
def apply_strategist (s : ProductionState) (u : StrategistUpdate) :
    ProductionState :=
  { s with outline := u.outline }

/-- LangGraph merge of `run_scraper_indexer`'s returned dict. -/
def apply_scraper_indexer (s : ProductionState) (u : ScraperIndexerUpdate) :
    ProductionState :=
  { s with rag_chunks := u.rag_chunks, retriever := u.retriever }

/-- LangGraph merge of `run_section_writer`'s returned dict
(graph.py lines 166-172: only `article_sections`; writer.py reads the
passport through `.get` only). -/
def apply_section_writer (s : ProductionState)
    (sections : List (Nat × String)) : ProductionState :=
  { s with article_sections := sections }

/-- LangGraph merge of `run_compiler`'s returned dict. -/
def apply_compiler (s : ProductionState) (u : CompilerUpdate) :
    ProductionState :=
  { s with final_article_path := u.final_article_path,
           final_article_text := u.final_article_text }

/-- The whole pipeline in the edge order wired by `GraphBuilder.build`
(graph.py lines 61-71): db check → query generation → search →
fact validation → strategist → scraper/indexer → writer → compiler,
with each stage's output quantified. -/
def pipeline_run (s0 : ProductionState) (u1 : DBCheckUpdate)
    (qs : List String) (rs : List (List (String × String)))
    (p : ArticlePassport) (u5 : StrategistUpdate)
    (u6 : ScraperIndexerUpdate) (sections : List (Nat × String))
    (u8 : CompilerUpdate) : ProductionState :=
  apply_compiler
    (apply_section_writer
      (apply_scraper_indexer
        (apply_strategist
          (apply_fact_validator
            (apply_broad_search
              (apply_query_generator (apply_db_check s0 u1) qs) rs) p)
          u5) u6) sections) u8

/-- C9: within one pipeline run the passport is written exactly once,
by the fact-validator stage: the three stages before it leave the field
untouched, the stage itself sets it to the validator's output, and
every state reached after it — after the strategist, after the
scraper/indexer, after the writer, and the final state — still carries
exactly that passport, whatever the other stages return. -/
theorem passport_write_once :
    (∀ (s : ProductionState) (u : DBCheckUpdate),
      (apply_db_check s u).article_passport = s.article_passport) ∧
    (∀ (s : ProductionState) (qs : List String),
      (apply_query_generator s qs).article_passport = s.article_passport) ∧
    (∀ (s : ProductionState) (rs : List (List (String × String))),
      (apply_broad_search s rs).article_passport = s.article_passport) ∧
    (∀ (s : ProductionState) (p : ArticlePassport),
      (apply_fact_validator s p).article_passport = some p) ∧
    (∀ (s0 : ProductionState) (u1 : DBCheckUpdate) (qs : List String)
        (rs : List (List (String × String))) (p : ArticlePassport)
        (u5 : StrategistUpdate) (u6 : ScraperIndexerUpdate)
        (sections : List (Nat × String)) (u8 : CompilerUpdate),
      (apply_strategist
          (apply_fact_validator
            (apply_broad_search
              (apply_query_generator (apply_db_check s0 u1) qs) rs) p)
          u5).article_passport = some p ∧
      (apply_scraper_indexer
          (apply_strategist
            (apply_fact_validator
              (apply_broad_search
                (apply_query_generator (apply_db_check s0 u1) qs) rs) p)
            u5) u6).article_passport = some p ∧
      (apply_section_writer
          (apply_scraper_indexer
            (apply_strategist
              (apply_fact_validator
                (apply_broad_search
                  (apply_query_generator (apply_db_check s0 u1) qs) rs) p)
              u5) u6) sections).article_passport = some p ∧
      (pipeline_run s0 u1 qs rs p u5 u6 sections u8).article_passport
        = some p) :=
  ⟨fun _ _ => rfl, fun _ _ => rfl, fun _ _ => rfl, fun _ _ => rfl,
   fun _ _ _ _ _ _ _ _ _ => ⟨rfl, rfl, rfl, rfl⟩⟩
